import Mathlib

/-
Verification development for the sparse spreadsheet model (src/model.c).

The C program keeps a global hash table `spreadsheet` of nodes keyed by the
string "row,col" (djb2 hash, separate chaining).  Distinct coordinates yield
distinct key strings and `set_cell_value` creates a cell only when `find_cell`
misses, so the table implements a finite map from (row, col) to cells.  The
embedding represents that map as an association list `Sheet`; `find_cell`
returns the first entry with the given key, and in-place mutation through a
`cell *` pointer becomes `update_cell`, which rewrites the first matching
entry.  Cell pointers are stable in the C code (nodes are never moved and at
most one live cell exists per key), so pointer identity is modelled by key
identity.

C doubles are modelled as rational numbers; the only NaN the program ever
produces is the literal `NAN` used as an error signal by `evaluate_formula`,
which the embedding renders as the distinguished result `EvalRes.nan`.

The callback `update_cell_display(row, col, text)` is an external collaborator
(the DisplaySink); the embedding threads a `Log` of emitted (row, col, text)
events in order.

`evaluate_formula` recurses into referenced formula cells; the embedding makes
that recursion a `Nat` fuel argument (the C recursion is bounded by the number
of cells not yet marked VISITING).  Running out of fuel yields `none`; every
theorem about the evaluator is stated on executions that return `some`.

One line of the source is undefined behaviour: `else if(isdigit(token))`
(model.c line 337) passes the token *pointer*, not a character, to `isdigit`.
The whole development is therefore parametrised by an oracle
`ub : String → Bool` recording, per token, the unspecified truth value that
call produces.
-/

namespace Spreadsheet

/-- Visit marks used for cycle detection (`cell_state` in model.c). -/
inductive CellState
  | UNVISITED
  | VISITING
  deriving DecidableEq, Repr

/-- Cell kinds (`cell_type` in model.c). -/
inductive CellType
  | NUMBER
  | TEXT
  | FORMULA
  | ERROR
  deriving DecidableEq, Repr

/-- A cell's identity: its (row, col) coordinates (`ROW` and `COL` are ints). -/
abbrev Key := Int × Int

/-- C doubles, as exact unnormalised fractions `num / den` with a positive
denominator.  The program only ever stores decimal literals and adds them, so
these fractions represent every value exactly; the denominator stays positive
under the operations below, so the value is zero exactly when `num = 0`
(which models the C comparison `result != 0`).  (Mathlib's Q normalises
through `Nat.gcd`, which the kernel cannot evaluate on closed terms.) -/
structure Q where
  num : Int
  den : Int
  deriving DecidableEq, Repr

def Q.add (a b : Q) : Q := ⟨a.num * b.den + b.num * a.den, a.den * b.den⟩

def Q.neg (a : Q) : Q := ⟨- a.num, a.den⟩

instance : Add Q := ⟨Q.add⟩

instance : Neg Q := ⟨Q.neg⟩

instance (n : Nat) : OfNat Q n := ⟨⟨Int.ofNat n, 1⟩⟩

/-- `struct cell` from model.c.  The C union `content` is split into the two
fields `number_value` and `text_value`; the program always reads the member
matching the current tag on the paths this development covers.  The
`dependents` pointer array becomes a list of keys, and the capacity field
(pure memory management) is dropped. -/
structure Cell where
  row : Int
  col : Int
  number_value : Q
  text_value : String
  computed_value : Q
  formula : String
  type : CellType
  original_input : String
  dependents : List Key
  state : CellState
  deriving DecidableEq, Repr

/-- The global hash table `spreadsheet`, as the finite map it implements. -/
abbrev Sheet := List (Key × Cell)

/-- Recorded `update_cell_display(row, col, text)` events, oldest first. -/
abbrev Log := List (Int × Int × String)

/-- `find_cell` (model.c lines 148-167): first entry with the given key. -/
def find_cell (σ : Sheet) (k : Key) : Option Cell :=
  match σ with
  | [] => none
  | (k', c) :: rest => if k' = k then some c else find_cell rest k

/-- In-place mutation through the `cell *` returned by `find_cell`: rewrite
the first entry with the given key (a miss leaves the sheet unchanged; every
caller in the source dereferences a pointer it has already obtained). -/
def update_cell (σ : Sheet) (k : Key) (f : Cell → Cell) : Sheet :=
  match σ with
  | [] => []
  | (k', c) :: rest =>
      if k' = k then (k', f c) :: rest else (k', c) :: update_cell rest k f

/-- Write of `current->state` in `evaluate_formula`. -/
def set_state (σ : Sheet) (k : Key) (s : CellState) : Sheet :=
  update_cell σ k (fun c => { c with state := s })

/-- `set_error_and_update` (model.c lines 80-87): set the cell's type to
ERROR, replace its text with the message, and notify the display with the
cell's row, col and the message. -/
def set_error_and_update (σ : Sheet) (log : Log) (k : Key) (msg : String) :
    Sheet × Log :=
  match find_cell σ k with
  | none => (σ, log)
  | some cl =>
      (update_cell σ k (fun c => { c with type := CellType.ERROR, text_value := msg }),
       log ++ [(cl.row, cl.col, msg)])

/-- `add_dependent` (model.c lines 129-145): append the dependent at the end
of the array (the capacity doubling is memory management only). -/
def add_dependent (σ : Sheet) (k : Key) (dep : Key) : Sheet :=
  update_cell σ k (fun c => { c with dependents := c.dependents ++ [dep] })

/-- `create_cell` (model.c lines 93-126): allocate a node, link it at the
bucket head, set coordinates, empty dependents, UNVISITED state and the
original input.  `type`, `content`, `formula` and `computed_value` are left
uninitialised by the source (malloc) and always assigned before first read;
the embedding picks fixed defaults for them. -/
def create_cell (r c : Int) (text : String) : Cell :=
  { row := r, col := c, number_value := 0, text_value := "",
    computed_value := 0, formula := "", type := CellType.NUMBER,
    original_input := text, dependents := [], state := CellState.UNVISITED }

/-- `atoi` applied to the tail of a reference token: skip whitespace, optional
sign, then leading decimal digits (0 when there are none). -/
def digits_value : List Char → Int → Int
  | c :: cs, acc =>
      if c.isDigit then digits_value cs (acc * 10 + ((c.toNat : Int) - 48)) else acc
  | [], acc => acc

def atoi (s : String) : Int :=
  match s.toList.dropWhile Char.isWhitespace with
  | c :: cs =>
      if c = Char.ofNat 45 then - digits_value cs 0        -- leading minus
      else if c = Char.ofNat 43 then digits_value cs 0     -- leading plus
      else digits_value (c :: cs) 0
  | [] => 0

/-- Leading decimal-digit run and its value. -/
def take_digits (cs : List Char) : List Char × List Char :=
  (cs.takeWhile Char.isDigit, cs.dropWhile Char.isDigit)

def nat_of_digits (l : List Char) : Nat :=
  l.foldl (fun a c => a * 10 + (c.toNat - 48)) 0

/-- Shared core of `strtod`/`atof` for plain decimal inputs (optional sign,
digits, optional fraction).  Returns the converted value and the unconsumed
suffix, or `none` when no conversion is performed (then `end == nptr` in C).
Exponent, hexadecimal, infinity and nan spellings are not modelled; no claim
exercises them. -/
def strtod_core (cs0 : List Char) : Option (Q × List Char) :=
  let cs1 := cs0.dropWhile Char.isWhitespace
  let signed : Bool × List Char :=
    match cs1 with
    | c :: cs =>
        if c = Char.ofNat 45 then (true, cs)
        else if c = Char.ofNat 43 then (false, cs)
        else (false, c :: cs)
    | [] => (false, [])
  let ip := take_digits signed.2
  let fp : List Char × List Char :=
    match ip.2 with
    | c :: cs => if c = Char.ofNat 46 then take_digits cs else ([], ip.2)  -- decimal point
    | [] => ([], [])
  if ip.1 = [] ∧ fp.1 = [] then none
  else
    let den : Int := Int.ofNat (10 ^ fp.1.length)
    let mag : Q :=
      ⟨Int.ofNat (nat_of_digits ip.1) * den + Int.ofNat (nat_of_digits fp.1), den⟩
    some (if signed.1 then - mag else mag, fp.2)

/-- The `strtod(text, &end); *end == '\0'` test in `set_cell_value`: the value
when the whole string converts.  On an empty string strtod converts nothing
and leaves `end` at the terminating NUL, so "" counts as the number 0. -/
def strtod_full (s : String) : Option Q :=
  match strtod_core s.toList with
  | some (v, []) => some v
  | some _ => none
  | none => if s.toList = [] then some 0 else none

/-- `atof` on a token: value of the leading decimal prefix, 0 if none. -/
def atof (s : String) : Q :=
  match strtod_core s.toList with
  | some (v, _) => v
  | none => 0

/-- `snprintf(buf, _, "%.1f", v)`: the value rounded to one decimal place.
The concrete values the claims exercise are exact one-digit decimals, where
every rounding convention agrees. -/
def fmt1_core (n : Nat) : String :=
  toString (n / 10) ++ "." ++ toString (n % 10)

def fmt1 (q : Q) : String :=
  let tenths : Int := Int.fdiv (20 * q.num + q.den) (2 * q.den)
  if tenths < 0 then "-" ++ fmt1_core (- tenths).toNat else fmt1_core tenths.toNat

/-- Split on the character `+` (code 43). -/
def split_plus : List Char → List Char → List (List Char)
  | [], acc => [acc.reverse]
  | c :: cs, acc =>
      if c = Char.ofNat 43 then acc.reverse :: split_plus cs []
      else split_plus cs (c :: acc)

/-- `strtok(formula, "+")`: the `+`-separated fields, empty fields skipped. -/
def tokenize (s : String) : List String :=
  ((split_plus s.toList []).filter (fun t => ¬ t = [])).map (fun t => String.mk t)

/-- `token[0]` (tokens produced by `strtok` are never empty). -/
def head_char (s : String) : Char := s.toList.headD (Char.ofNat 0)

/-- The string starting one character in (`text + 1` in C). -/
def string_tail (s : String) : String := String.mk (s.toList.drop 1)

/-- Result of `evaluate_formula`: a numeric value, or the `NAN` error/text
signal tested with `isnan` by the callers. -/
inductive EvalRes
  | nan
  | num (v : Q)
  deriving DecidableEq, Repr

/-- Outcome of the token `while` loop of `evaluate_formula`: an early `return
NAN` from inside the loop, or fall-through/`break` with the accumulated
numeric sum and optional string. -/
inductive LoopOut
  | early (σ : Sheet) (log : Log)
  | done (sum : Q) (str : Option String) (σ : Sheet) (log : Log)
  deriving DecidableEq, Repr

/-- Sheet carried by a loop outcome. -/
def LoopOut.sheet : LoopOut → Sheet
  | .early σ _ => σ
  | .done _ _ σ _ => σ

/-- An in-loop failure path of `evaluate_formula`: `set_error_and_update`,
restore `current->state = UNVISITED`, `return NAN`. -/
def err_ret (σ : Sheet) (log : Log) (ck : Key) (msg : String) : LoopOut :=
  let p := set_error_and_update σ log ck msg
  LoopOut.early (set_state p.1 ck CellState.UNVISITED) p.2

/-- The token `while` loop of `evaluate_formula` (model.c lines 256-351),
parametrised by the evaluator `evalF` used for referenced FORMULA cells.
`ck` is the evaluating cell (`current`); the state and sum/string
accumulators are threaded exactly as in the source:
  * a token whose first character is alphabetic is a reference:
    `col = token[0]-'A'`, `row = atoi(token+1)-1`;
    - absent referenced cell: error "ERROR: invalid cell reference";
    - referenced cell VISITING: error "ERROR: circular dependency";
    - NUMBER: add its value to the sum;
    - FORMULA: recursively evaluate; a NaN sub-result restores `ck`'s state
      and returns NAN; otherwise add the sub-result;
    - TEXT/ERROR: start or extend the running string (an ERROR operand
      replaces it);
    then register `ck` as a dependent of the referenced cell unless already
    present, and `break` out of the loop if the referenced cell's type is
    ERROR (the dependent registration reads the referenced cell again, after
    a possible sub-evaluation, as the C code does through its pointer);
  * otherwise the token meets `isdigit(token)` — undefined behaviour whose
    unspecified outcome is the oracle `ub token`; when it is true,
    `atof(token)` is added to the sum, when false the loop fails with
    "ERROR: invalid cell reference". -/
def eval_tokens (ub : String → Bool)
    (evalF : Sheet → Log → Key → Option (EvalRes × Sheet × Log)) (ck : Key) :
    Sheet → Log → List String → Q → Option String → Option LoopOut
  | σ, log, [], sum, str => some (LoopOut.done sum str σ log)
  | σ, log, tok :: rest, sum, str =>
    if (head_char tok).isAlpha then
      let refKey : Key := (atoi (string_tail tok) - 1, ((head_char tok).toNat : Int) - 65)
      match find_cell σ refKey with
      | none => some (err_ret σ log ck ("ERROR: invalid cell reference"))
      | some cl =>
        if cl.state = CellState.VISITING then
          some (err_ret σ log ck ("ERROR: circular dependency"))
        else
          match cl.type with
          | CellType.NUMBER =>
            let σ2 := if ck ∈ cl.dependents then σ else add_dependent σ refKey ck
            if cl.type = CellType.ERROR then
              some (LoopOut.done (sum + cl.number_value) str σ2 log)
            else
              eval_tokens ub evalF ck σ2 log rest (sum + cl.number_value) str
          | CellType.FORMULA =>
            match evalF σ log refKey with
            | none => none
            | some (EvalRes.nan, σ2, log2) =>
                some (LoopOut.early (set_state σ2 ck CellState.UNVISITED) log2)
            | some (EvalRes.num v, σ2, log2) =>
                match find_cell σ2 refKey with
                | none => none
                | some cl2 =>
                  let σ3 := if ck ∈ cl2.dependents then σ2 else add_dependent σ2 refKey ck
                  if cl2.type = CellType.ERROR then
                    some (LoopOut.done (sum + v) str σ3 log2)
                  else
                    eval_tokens ub evalF ck σ3 log2 rest (sum + v) str
          | _ =>
            let str1 : Option String :=
              match str, cl.type with
              | none, _ => some cl.text_value
              | some _, CellType.ERROR => some cl.text_value
              | some s0, _ => some (s0 ++ cl.text_value)
            let σ2 := if ck ∈ cl.dependents then σ else add_dependent σ refKey ck
            if cl.type = CellType.ERROR then
              some (LoopOut.done sum str1 σ2 log)
            else
              eval_tokens ub evalF ck σ2 log rest sum str1
    else if ub tok then
      eval_tokens ub evalF ck σ log rest (sum + atof tok) str
    else
      some (err_ret σ log ck ("ERROR: invalid cell reference"))

/-- `evaluate_formula` (model.c lines 243-370).  The `formula` parameter of
the C function is ignored by its body, which tokenizes `current->formula`;
the embedding therefore reads the formula from the cell.  After the loop the
state is restored to UNVISITED and the result is resolved:
  * string produced and non-zero sum: error "ERROR: incompatible types",
    return NAN;
  * string produced and zero sum: cell becomes TEXT with the string, NAN;
  * no string: return the numeric sum.
`fuel` bounds the recursion into referenced FORMULA cells. -/
def evaluate_formula (ub : String → Bool) :
    Nat → Sheet → Log → Key → Option (EvalRes × Sheet × Log)
  | 0, _, _, _ => none
  | Nat.succ f, σ, log, ck =>
    match find_cell σ ck with
    | none => none
    | some cur =>
      let σ1 := set_state σ ck CellState.VISITING
      match eval_tokens ub (fun σ log k => evaluate_formula ub f σ log k) ck
          σ1 log (tokenize cur.formula) 0 none with
      | none => none
      | some (LoopOut.early σ2 log2) => some (EvalRes.nan, σ2, log2)
      | some (LoopOut.done sum str σ2 log2) =>
        let σ3 := set_state σ2 ck CellState.UNVISITED
        match str with
        | some s =>
          if sum.num ≠ 0 then
            let p := set_error_and_update σ3 log2 ck ("ERROR: incompatible types")
            some (EvalRes.nan, p.1, p.2)
          else
            some (EvalRes.nan,
              update_cell σ3 ck (fun c => { c with text_value := s, type := CellType.TEXT }),
              log2)
        | none => some (EvalRes.num sum, σ3, log2)

/-- The `for` loop of `update_dependencies` (model.c lines 374-408),
parametrised by the evaluator.  The C loop re-reads `current->dependents`
and its count on every iteration, so the embedding indexes by `i` into the
list as found in the current sheet:
  * dependent equal to `current`: `set_error_and_update(current,
    "ERROR: circular dependency")` and continue, with no re-evaluation;
  * otherwise re-evaluate the dependent; on NaN, if its type is ERROR first
    overwrite its message with "ERROR: incompatible types", then notify the
    display with the dependent's `text_value`; on a number, set the
    dependent's type and value and notify the display with the value
    formatted "%.1f". -/
def update_deps_loop (ub : String → Bool)
    (evalF : Sheet → Log → Key → Option (EvalRes × Sheet × Log)) :
    Nat → Sheet → Log → Key → Nat → Option (Sheet × Log)
  | 0, _, _, _, _ => none
  | Nat.succ f, σ, log, k, i =>
    match find_cell σ k with
    | none => none
    | some cur =>
      if h : i < cur.dependents.length then
        let d := cur.dependents.get ⟨i, h⟩
        if d = k then
          let p := set_error_and_update σ log k ("ERROR: circular dependency")
          update_deps_loop ub evalF f p.1 p.2 k (i + 1)
        else
          match evalF σ log d with
          | none => none
          | some (EvalRes.nan, σ1, log1) =>
            match find_cell σ1 d with
            | none => none
            | some dep =>
              let p :=
                if dep.type = CellType.ERROR then
                  set_error_and_update σ1 log1 d ("ERROR: incompatible types")
                else (σ1, log1)
              match find_cell p.1 d with
              | none => none
              | some dep2 =>
                update_deps_loop ub evalF f p.1
                  (p.2 ++ [(dep2.row, dep2.col, dep2.text_value)]) k (i + 1)
          | some (EvalRes.num v, σ1, log1) =>
            match find_cell σ1 d with
            | none => none
            | some dep =>
              let σ2 := update_cell σ1 d
                (fun c => { c with type := CellType.NUMBER, number_value := v })
              update_deps_loop ub evalF f σ2
                (log1 ++ [(dep.row, dep.col, fmt1 v)]) k (i + 1)
      else some (σ, log)

/-- `update_dependencies` (model.c lines 373-409). -/
def update_dependencies (ub : String → Bool) (fuel : Nat) (σ : Sheet)
    (log : Log) (k : Key) : Option (Sheet × Log) :=
  update_deps_loop ub (fun σ log k => evaluate_formula ub fuel σ log k)
    fuel σ log k 0

/-- `set_cell_value` (model.c lines 412-510).  Find or create the cell and
store the raw text as its `original_input` (the frees of the previous
formula/text buffers have no abstract effect).  Then:
  * text starting with `=`: set type FORMULA, store the operand list, and
    evaluate.  A NaN result with the type still FORMULA (a NaN sub-formula)
    turns the cell into ERROR displaying its original input; a NaN result
    with any other type (ERROR set by the evaluator, or TEXT from a string
    result) just notifies the display with the cell's text — and in both NaN
    cases the function returns without propagating.  A numeric result sets
    `computed_value`, type NUMBER and the value, and notifies the display
    with the value formatted "%.1f";
  * otherwise: a fully numeric text becomes NUMBER, anything else TEXT, and
    the display is notified with the raw text.
Finally (except on the NaN return path) `update_dependencies` runs on the
cell. -/
def find_or_create (σ : Sheet) (r c : Int) (text : String) : Sheet :=
  match find_cell σ (r, c) with
  | none => ((r, c), create_cell r c text) :: σ
  | some _ => update_cell σ (r, c) (fun cl => { cl with original_input := text })

/-- Body of `set_cell_value` after the find-or-create step (split out so the
two parts can be reasoned about separately). -/
def set_cell_value_body (ub : String → Bool) (fuel : Nat) (σ0 : Sheet)
    (log : Log) (r c : Int) (text : String) : Option (Sheet × Log) :=
  let k : Key := (r, c)
  if head_char text = Char.ofNat 61 then    -- text[0] == the character =
    let σ1 := update_cell σ0 k
      (fun cl => { cl with type := CellType.FORMULA, formula := string_tail text })
    match evaluate_formula ub fuel σ1 log k with
    | none => none
    | some (EvalRes.nan, σ2, log2) =>
      match find_cell σ2 k with
      | none => none
      | some cur =>
        if cur.type = CellType.FORMULA then
          some (update_cell σ2 k
              (fun cl => { cl with type := CellType.ERROR, text_value := cl.original_input }),
            log2 ++ [(r, c, cur.original_input)])
        else
          some (σ2, log2 ++ [(r, c, cur.text_value)])
    | some (EvalRes.num v, σ2, log2) =>
      let σ3 := update_cell σ2 k
        (fun cl => { cl with computed_value := v, type := CellType.NUMBER, number_value := v })
      update_dependencies ub fuel σ3 (log2 ++ [(r, c, fmt1 v)]) k
  else
    match strtod_full text with
    | some v =>
      let σ1 := update_cell σ0 k
        (fun cl => { cl with type := CellType.NUMBER, number_value := v })
      update_dependencies ub fuel σ1 (log ++ [(r, c, text)]) k
    | none =>
      let σ1 := update_cell σ0 k
        (fun cl => { cl with type := CellType.TEXT, text_value := text })
      update_dependencies ub fuel σ1 (log ++ [(r, c, text)]) k

def set_cell_value (ub : String → Bool) (fuel : Nat) (σ : Sheet) (log : Log)
    (r c : Int) (text : String) : Option (Sheet × Log) :=
  set_cell_value_body ub fuel (find_or_create σ r c text) log r c text

/-- `get_textual_value` (model.c lines 513-527): the cell's original input,
or a not-found indication (the C function prints a message and returns
NULL). -/
def get_textual_value (σ : Sheet) (r c : Int) : Option String :=
  match find_cell σ (r, c) with
  | some cur => some cur.original_input
  | none => none

/-- `clear_cell` (model.c lines 170-196).  The C function dereferences the
result of `find_cell` with no null check; the embedding returns `none`
exactly on that unguarded dereference.  On an existing cell the frees have
no abstract effect, the NUMBER branch zeroes `number_value`, and the display
is notified with the empty string. -/
def clear_cell (σ : Sheet) (log : Log) (r c : Int) : Option (Sheet × Log) :=
  match find_cell σ (r, c) with
  | none => none
  | some cur =>
    let σ1 :=
      if cur.type = CellType.NUMBER then
        update_cell σ (r, c) (fun cl => { cl with number_value := 0 })
      else σ
    some (σ1, log ++ [(r, c, "")])

/-- `model_init` (model.c lines 532-536): the empty store. -/
def model_init : Sheet := []

/-! Observation helpers for stating properties. -/

def state_at (σ : Sheet) (k : Key) : Option CellState :=
  (find_cell σ k).map Cell.state

def type_at (σ : Sheet) (k : Key) : Option CellType :=
  (find_cell σ k).map Cell.type

def text_at (σ : Sheet) (k : Key) : Option String :=
  (find_cell σ k).map Cell.text_value

def num_at (σ : Sheet) (k : Key) : Option Q :=
  (find_cell σ k).map Cell.number_value

def orig_at (σ : Sheet) (k : Key) : Option String :=
  (find_cell σ k).map Cell.original_input

def deps_at (σ : Sheet) (k : Key) : Option (List Key) :=
  (find_cell σ k).map Cell.dependents

/-! Helpers for running concrete scenarios.  The oracle `ub_false` answers
`false` for the unspecified `isdigit(token)` call; the scenarios below whose
formulas contain only reference tokens never consult it. -/

def ub_false : String → Bool := fun _ => false

def ub_true : String → Bool := fun _ => true

/-- Chain a `set_cell_value` call onto the outcome of a previous one. -/
def run_set (st : Option (Sheet × Log)) (r c : Int) (t : String) :
    Option (Sheet × Log) :=
  st.bind (fun p => set_cell_value ub_false 64 p.1 p.2 r c t)

def st_type (st : Option (Sheet × Log)) (k : Key) : Option CellType :=
  match st with
  | some p => type_at p.1 k
  | none => none

def st_text (st : Option (Sheet × Log)) (k : Key) : Option String :=
  match st with
  | some p => text_at p.1 k
  | none => none

def st_num (st : Option (Sheet × Log)) (k : Key) : Option Q :=
  match st with
  | some p => num_at p.1 k
  | none => none

def st_state (st : Option (Sheet × Log)) (k : Key) : Option CellState :=
  match st with
  | some p => state_at p.1 k
  | none => none

def st_log (st : Option (Sheet × Log)) : Log :=
  match st with
  | some p => p.2
  | none => []

/-! ### Basic lemmas about the sheet map -/

theorem find_cell_mem {σ : Sheet} {k : Key} {c : Cell}
    (h : find_cell σ k = some c) : (k, c) ∈ σ := by
  induction σ with
  | nil => simp [find_cell] at h
  | cons e rest ih =>
    obtain ⟨k', c'⟩ := e
    rw [find_cell] at h
    split at h
    · cases h
      simp_all
    · exact List.mem_cons_of_mem _ (ih h)

theorem find_update_self {σ : Sheet} {k : Key} {c : Cell} (f : Cell → Cell)
    (h : find_cell σ k = some c) :
    find_cell (update_cell σ k f) k = some (f c) := by
  induction σ with
  | nil => simp [find_cell] at h
  | cons e rest ih =>
    obtain ⟨k', c'⟩ := e
    rw [find_cell] at h
    rw [update_cell]
    split at h
    · cases h
      simp_all [find_cell]
    · next hne =>
      rw [if_neg hne, find_cell, if_neg hne]
      exact ih h

theorem update_of_find_none {σ : Sheet} {k : Key} (f : Cell → Cell)
    (h : find_cell σ k = none) : update_cell σ k f = σ := by
  induction σ with
  | nil => rfl
  | cons e rest ih =>
    obtain ⟨k', c'⟩ := e
    rw [find_cell] at h
    split at h
    · cases h
    · next hne =>
      rw [update_cell, if_neg hne, ih h]

theorem find_update_other {σ : Sheet} {k k' : Key} (f : Cell → Cell)
    (h : k' ≠ k) : find_cell (update_cell σ k f) k' = find_cell σ k' := by
  induction σ with
  | nil => rfl
  | cons e rest ih =>
    obtain ⟨ke, ce⟩ := e
    rw [update_cell]
    by_cases hk : ke = k
    · rw [if_pos hk, find_cell, find_cell]
      have : ¬ ke = k' := fun hh => h (hh ▸ hk.symm ▸ rfl)
      rw [if_neg (hk ▸ this), if_neg this]
    · rw [if_neg hk, find_cell, find_cell]
      split
      · rfl
      · exact ih

/-- A field observation unchanged by an update that preserves it. -/
theorem map_at_update {α : Type} (g : Cell → α) (f : Cell → Cell)
    (hg : ∀ c, g (f c) = g c) (σ : Sheet) (k' k : Key) :
    (find_cell (update_cell σ k' f) k).map g = (find_cell σ k).map g := by
  by_cases hk : k = k'
  · subst hk
    cases hfind : find_cell σ k with
    | none => rw [update_of_find_none f hfind, hfind]
    | some c => rw [find_update_self f hfind]; simp [hg]
  · rw [find_update_other f hk]

theorem isSome_update (f : Cell → Cell) (σ : Sheet) (k' k : Key) :
    (find_cell (update_cell σ k' f) k).isSome = (find_cell σ k).isSome := by
  by_cases hk : k = k'
  · subst hk
    cases hfind : find_cell σ k with
    | none => rw [update_of_find_none f hfind, hfind]
    | some c => rw [find_update_self f hfind]; rfl
  · rw [find_update_other f hk]

/-! ### Sheet evolutions that keep cells alive and their original input -/

/-- The evaluator and propagator never create or remove cells and never touch
`original_input`; `Tracks σ σ'` records exactly that. -/
def Tracks (σ σ' : Sheet) : Prop :=
  ∀ k, (find_cell σ k).isSome →
    ((find_cell σ' k).isSome ∧ orig_at σ' k = orig_at σ k)

theorem tracks_rfl (σ : Sheet) : Tracks σ σ := fun _ h => ⟨h, rfl⟩

theorem tracks_trans {σ1 σ2 σ3 : Sheet} (h12 : Tracks σ1 σ2)
    (h23 : Tracks σ2 σ3) : Tracks σ1 σ3 := by
  intro k h
  obtain ⟨h2, e2⟩ := h12 k h
  obtain ⟨h3, e3⟩ := h23 k h2
  exact ⟨h3, e3.trans e2⟩

theorem tracks_update (f : Cell → Cell)
    (hf : ∀ c, (f c).original_input = c.original_input) (σ : Sheet)
    (k' : Key) : Tracks σ (update_cell σ k' f) := by
  intro k h
  refine ⟨by rw [isSome_update]; exact h, ?_⟩
  simp only [orig_at]
  exact map_at_update Cell.original_input f hf σ k' k

theorem tracks_set_state (σ : Sheet) (k' : Key) (s : CellState) :
    Tracks σ (set_state σ k' s) := by
  rw [set_state]
  exact tracks_update (fun c => { c with state := s }) (fun _ => rfl) σ k'

theorem tracks_add_dependent (σ : Sheet) (k' dep : Key) :
    Tracks σ (add_dependent σ k' dep) := by
  rw [add_dependent]
  exact tracks_update (fun c => { c with dependents := c.dependents ++ [dep] })
    (fun _ => rfl) σ k'

theorem tracks_set_error (σ : Sheet) (log : Log) (k' : Key) (msg : String) :
    Tracks σ (set_error_and_update σ log k' msg).1 := by
  cases hf : find_cell σ k' with
  | none => simp only [set_error_and_update, hf]; exact tracks_rfl σ
  | some cl =>
    simp only [set_error_and_update, hf]
    exact tracks_update
      (fun c => { c with type := CellType.ERROR, text_value := msg })
      (fun _ => rfl) σ k'

theorem tracks_err_ret (σ : Sheet) (log : Log) (ck : Key) (msg : String) :
    Tracks σ (err_ret σ log ck msg).sheet :=
  tracks_trans (tracks_set_error σ log ck msg)
    (tracks_set_state _ ck CellState.UNVISITED)

/-! ### Visit-state observations -/

theorem state_at_set_state_self {σ : Sheet} {k : Key} (s : CellState)
    (h : (find_cell σ k).isSome) : state_at (set_state σ k s) k = some s := by
  obtain ⟨c, hc⟩ := Option.isSome_iff_exists.mp h
  simp [state_at, set_state, find_update_self _ hc]

theorem state_at_update_preserve (f : Cell → Cell)
    (hf : ∀ c, (f c).state = c.state) (σ : Sheet) (k' k : Key) :
    state_at (update_cell σ k' f) k = state_at σ k := by
  simp only [state_at]
  exact map_at_update Cell.state f hf σ k' k

theorem state_at_set_error (σ : Sheet) (log : Log) (k' : Key) (msg : String)
    (k : Key) :
    state_at (set_error_and_update σ log k' msg).1 k = state_at σ k := by
  cases hf : find_cell σ k' with
  | none => simp only [set_error_and_update, hf]
  | some cl =>
    simp only [set_error_and_update, hf]
    exact state_at_update_preserve
      (fun c => { c with type := CellType.ERROR, text_value := msg })
      (fun _ => rfl) σ k' k

theorem state_at_err_ret (σ : Sheet) (log : Log) (ck : Key) (msg : String)
    (h : (find_cell σ ck).isSome) :
    state_at (err_ret σ log ck msg).sheet ck = some CellState.UNVISITED := by
  rw [err_ret]
  exact state_at_set_state_self _ ((tracks_set_error σ log ck msg ck h).1)

theorem tracks_dep_mark (σ : Sheet) (refKey ck : Key) (b : Prop) [Decidable b] :
    Tracks σ (if b then σ else add_dependent σ refKey ck) := by
  split
  · exact tracks_rfl σ
  · exact tracks_add_dependent σ refKey ck

theorem eval_tokens_tracks {ub : String → Bool}
    {evalF : Sheet → Log → Key → Option (EvalRes × Sheet × Log)}
    (hF : ∀ σ log k r σ' log', evalF σ log k = some (r, σ', log') → Tracks σ σ')
    (ck : Key) :
    ∀ toks σ log sum str out,
      eval_tokens ub evalF ck σ log toks sum str = some out →
      Tracks σ out.sheet := by
  intro toks
  induction toks with
  | nil =>
    intro σ log sum str out h
    rw [eval_tokens] at h
    cases h
    exact tracks_rfl σ
  | cons tok rest ih =>
    intro σ log sum str out h
    rw [eval_tokens] at h
    split at h
    case isTrue halpha =>
      simp only [] at h
      split at h
      next hfind =>
        cases h
        exact tracks_err_ret σ log ck _
      next cl hfind =>
        split at h
        case isTrue hvis =>
          cases h
          exact tracks_err_ret σ log ck _
        case isFalse hvis =>
          split at h
          next htype =>
            -- NUMBER
            split at h
            case isTrue herr =>
              cases h
              exact tracks_dep_mark σ _ ck _
            case isFalse herr =>
              exact tracks_trans (tracks_dep_mark σ _ ck _) (ih _ _ _ _ _ h)
          next htype =>
            -- FORMULA
            split at h
            next hsub => cases h
            next σ2 log2 hsub =>
              cases h
              exact tracks_trans (hF _ _ _ _ _ _ hsub) (tracks_set_state σ2 ck _)
            next v σ2 log2 hsub =>
              split at h
              next hfind2 => cases h
              next cl2 hfind2 =>
                split at h
                case isTrue herr =>
                  cases h
                  exact tracks_trans (hF _ _ _ _ _ _ hsub) (tracks_dep_mark σ2 _ ck _)
                case isFalse herr =>
                  exact tracks_trans (hF _ _ _ _ _ _ hsub)
                    (tracks_trans (tracks_dep_mark σ2 _ ck _) (ih _ _ _ _ _ h))
          next htype hne =>
            -- TEXT or ERROR
            split at h
            case isTrue herr =>
              cases h
              exact tracks_dep_mark σ _ ck _
            case isFalse herr =>
              exact tracks_trans (tracks_dep_mark σ _ ck _) (ih _ _ _ _ _ h)
    case isFalse halpha =>
      split at h
      case isTrue hub =>
        exact ih σ log _ str out h
      case isFalse hub =>
        cases h
        exact tracks_err_ret σ log ck _

theorem evaluate_formula_tracks (ub : String → Bool) :
    ∀ fuel σ log ck r σ' log',
      evaluate_formula ub fuel σ log ck = some (r, σ', log') → Tracks σ σ' := by
  intro fuel
  induction fuel with
  | zero =>
    intro σ log ck r σ' log' h
    rw [evaluate_formula] at h
    cases h
  | succ f ih =>
    intro σ log ck r σ' log' h
    have hF : ∀ σ log k r σ' log',
        (fun σ log k => evaluate_formula ub f σ log k) σ log k
          = some (r, σ', log') → Tracks σ σ' :=
      fun σ log k r σ' log' hh => ih σ log k r σ' log' hh
    rw [evaluate_formula] at h
    split at h
    next hfind => cases h
    next cur hfind =>
      simp only [] at h
      split at h
      next hloop => cases h
      next σ2 log2 hloop =>
        cases h
        exact tracks_trans (tracks_set_state σ ck _)
          (eval_tokens_tracks hF ck _ _ _ _ _ _ hloop)
      next sum str σ2 log2 hloop =>
        have htr : Tracks σ (set_state σ2 ck CellState.UNVISITED) :=
          tracks_trans (tracks_set_state σ ck _)
            (tracks_trans (eval_tokens_tracks hF ck _ _ _ _ _ _ hloop)
              (tracks_set_state σ2 ck _))
        cases str with
        | none =>
          simp only [] at h
          cases h
          exact htr
        | some s =>
          simp only [] at h
          by_cases hsum : sum.num = 0
          · rw [if_neg (fun hh => hh hsum)] at h
            cases h
            exact tracks_trans htr
              (tracks_update
                (fun c => { c with text_value := s, type := CellType.TEXT })
                (fun _ => rfl) _ ck)
          · rw [if_pos hsum] at h
            cases h
            exact tracks_trans htr (tracks_set_error _ _ _ _)

theorem tracks_err_if (σ1 : Sheet) (log1 : Log) (d : Key) (msg : String)
    (b : Prop) [Decidable b] :
    Tracks σ1 (if b then set_error_and_update σ1 log1 d msg else (σ1, log1)).1 := by
  split
  · exact tracks_set_error σ1 log1 d msg
  · exact tracks_rfl σ1

theorem update_deps_loop_tracks {ub : String → Bool}
    {evalF : Sheet → Log → Key → Option (EvalRes × Sheet × Log)}
    (hF : ∀ σ log k r σ' log', evalF σ log k = some (r, σ', log') → Tracks σ σ') :
    ∀ fuel σ log k i σ' log',
      update_deps_loop ub evalF fuel σ log k i = some (σ', log') →
      Tracks σ σ' := by
  intro fuel
  induction fuel with
  | zero =>
    intro σ log k i σ' log' h
    rw [update_deps_loop] at h
    cases h
  | succ f ih =>
    intro σ log k i σ' log' h
    rw [update_deps_loop] at h
    split at h
    next hfind => cases h
    next cur hfind =>
      split at h
      case isTrue hlt =>
        simp only [] at h
        split at h
        case isTrue hd =>
          exact tracks_trans (tracks_set_error σ log k _) (ih _ _ _ _ _ _ h)
        case isFalse hd =>
          split at h
          next hev => cases h
          next σ1 log1 hev =>
            split at h
            next hf1 => cases h
            next dep hf1 =>
              split at h
              next hf2 => cases h
              next dep2 hf2 =>
                exact tracks_trans (hF _ _ _ _ _ _ hev)
                  (tracks_trans (tracks_err_if σ1 log1 _ _ _) (ih _ _ _ _ _ _ h))
          next v σ1 log1 hev =>
            split at h
            next hf1 => cases h
            next dep hf1 =>
              exact tracks_trans (hF _ _ _ _ _ _ hev)
                (tracks_trans
                  (tracks_update
                    (fun c => { c with type := CellType.NUMBER, number_value := v })
                    (fun _ => rfl) σ1 _)
                  (ih _ _ _ _ _ _ h))
      case isFalse hlt =>
        cases h
        exact tracks_rfl σ

theorem eval_tokens_early_unvisited {ub : String → Bool}
    {evalF : Sheet → Log → Key → Option (EvalRes × Sheet × Log)}
    (hF : ∀ σ log k r σ' log', evalF σ log k = some (r, σ', log') → Tracks σ σ')
    (ck : Key) :
    ∀ toks σ log sum str σ2 log2,
      (find_cell σ ck).isSome →
      eval_tokens ub evalF ck σ log toks sum str = some (LoopOut.early σ2 log2) →
      state_at σ2 ck = some CellState.UNVISITED := by
  intro toks
  induction toks with
  | nil =>
    intro σ log sum str σ2 log2 hsome h
    rw [eval_tokens] at h
    cases h
  | cons tok rest ih =>
    intro σ log sum str σ2 log2 hsome h
    rw [eval_tokens] at h
    split at h
    case isTrue halpha =>
      simp only [] at h
      split at h
      next hfind =>
        simp only [err_ret] at h
        cases h
        exact state_at_set_state_self _ ((tracks_set_error σ log ck _ ck hsome).1)
      next cl hfind =>
        split at h
        case isTrue hvis =>
          simp only [err_ret] at h
          cases h
          exact state_at_set_state_self _ ((tracks_set_error σ log ck _ ck hsome).1)
        case isFalse hvis =>
          split at h
          next htype =>
            split at h
            case isTrue herr => cases h
            case isFalse herr =>
              exact ih _ _ _ _ _ _ ((tracks_dep_mark σ _ ck _ ck hsome).1) h
          next htype =>
            split at h
            next hsub => cases h
            next σ2x log2x hsub =>
              cases h
              exact state_at_set_state_self _ ((hF _ _ _ _ _ _ hsub ck hsome).1)
            next v σ2x log2x hsub =>
              split at h
              next hfind2 => cases h
              next cl2 hfind2 =>
                split at h
                case isTrue herr => cases h
                case isFalse herr =>
                  exact ih _ _ _ _ _ _
                    ((tracks_dep_mark σ2x _ ck _ ck
                      ((hF _ _ _ _ _ _ hsub ck hsome).1)).1) h
          next htype hne =>
            split at h
            case isTrue herr => cases h
            case isFalse herr =>
              exact ih _ _ _ _ _ _ ((tracks_dep_mark σ _ ck _ ck hsome).1) h
    case isFalse halpha =>
      split at h
      case isTrue hub => exact ih _ _ _ _ _ _ hsome h
      case isFalse hub =>
        simp only [err_ret] at h
        cases h
        exact state_at_set_state_self _ ((tracks_set_error σ log ck _ ck hsome).1)

/-- Claim C4: for every cell and every operand-list text (held in the cell's
`formula` field), whenever a top-level call to `evaluate_formula` returns —
success, error or cycle detection alike — the evaluated cell's visit state in
the resulting sheet is UNVISITED; no return path leaves it stuck VISITING. -/
theorem c4_visit_state_restored (ub : String → Bool) (fuel : Nat) (σ : Sheet)
    (log : Log) (ck : Key) (r : EvalRes) (σ' : Sheet) (log' : Log)
    (h : evaluate_formula ub fuel σ log ck = some (r, σ', log')) :
    state_at σ' ck = some CellState.UNVISITED := by
  cases fuel with
  | zero => rw [evaluate_formula] at h; cases h
  | succ f =>
    have hF : ∀ σ log k r σ' log',
        (fun σ log k => evaluate_formula ub f σ log k) σ log k
          = some (r, σ', log') → Tracks σ σ' :=
      fun σ log k r σ' log' hh => evaluate_formula_tracks ub f σ log k r σ' log' hh
    rw [evaluate_formula] at h
    split at h
    next hfind => cases h
    next cur hfind =>
      have hsome1 : (find_cell (set_state σ ck CellState.VISITING) ck).isSome := by
        rw [set_state, isSome_update, hfind]; rfl
      simp only [] at h
      split at h
      next hloop => cases h
      next σ2 log2 hloop =>
        cases h
        exact eval_tokens_early_unvisited hF ck _ _ _ _ _ _ _ hsome1 hloop
      next sum str σ2 log2 hloop =>
        have hsome2 : (find_cell σ2 ck).isSome :=
          (eval_tokens_tracks hF ck _ _ _ _ _ _ hloop ck hsome1).1
        have hs3 : state_at (set_state σ2 ck CellState.UNVISITED) ck
            = some CellState.UNVISITED := state_at_set_state_self _ hsome2
        cases str with
        | none =>
          simp only [] at h
          cases h
          exact hs3
        | some s =>
          simp only [] at h
          by_cases hsum : sum.num = 0
          · rw [if_neg (fun hh => hh hsum)] at h
            cases h
            rw [state_at_update_preserve
              (fun c => { c with text_value := s, type := CellType.TEXT })
              (fun _ => rfl)]
            exact hs3
          · rw [if_pos hsum] at h
            cases h
            rw [state_at_set_error]
            exact hs3

/-! ### No duplicate dependent edges -/

/-- Every cell's dependents list is duplicate-free. -/
def dependents_nodup (σ : Sheet) : Prop :=
  ∀ e ∈ σ, List.Nodup (Prod.snd e).dependents

theorem nodup_update_of (k : Key) (f : Cell → Cell) :
    ∀ σ : Sheet,
      (∀ c, find_cell σ k = some c → List.Nodup (f c).dependents) →
      dependents_nodup σ → dependents_nodup (update_cell σ k f) := by
  intro σ
  induction σ with
  | nil =>
    intro _ _ e he
    cases he
  | cons ec rest ih =>
    obtain ⟨ke, ce⟩ := ec
    intro hf hσ e he
    rw [update_cell] at he
    by_cases hk : ke = k
    · rw [if_pos hk] at he
      rcases List.mem_cons.mp he with rfl | hmem
      · exact hf ce (by rw [find_cell, if_pos hk])
      · exact hσ _ (List.mem_cons_of_mem _ hmem)
    · rw [if_neg hk] at he
      rcases List.mem_cons.mp he with rfl | hmem
      · exact hσ _ (List.mem_cons_self _ _)
      · exact ih (fun c hc => hf c (by rw [find_cell, if_neg hk]; exact hc))
          (fun e2 he2 => hσ e2 (List.mem_cons_of_mem _ he2)) _ hmem

theorem nodup_update_preserve (k : Key) (f : Cell → Cell)
    (hf : ∀ c, (f c).dependents = c.dependents) (σ : Sheet)
    (hσ : dependents_nodup σ) : dependents_nodup (update_cell σ k f) :=
  nodup_update_of k f σ
    (fun c hc => (hf c).symm ▸ hσ _ (find_cell_mem hc)) hσ

theorem nodup_set_state (σ : Sheet) (k : Key) (s : CellState)
    (hσ : dependents_nodup σ) : dependents_nodup (set_state σ k s) := by
  rw [set_state]
  exact nodup_update_preserve k (fun c => { c with state := s })
    (fun _ => rfl) σ hσ

theorem nodup_set_error (σ : Sheet) (log : Log) (k : Key) (msg : String)
    (hσ : dependents_nodup σ) :
    dependents_nodup (set_error_and_update σ log k msg).1 := by
  cases hf : find_cell σ k with
  | none => simp only [set_error_and_update, hf]; exact hσ
  | some cl =>
    simp only [set_error_and_update, hf]
    exact nodup_update_preserve k
      (fun c => { c with type := CellType.ERROR, text_value := msg })
      (fun _ => rfl) σ hσ

theorem nodup_err_ret (σ : Sheet) (log : Log) (ck : Key) (msg : String)
    (hσ : dependents_nodup σ) :
    dependents_nodup (err_ret σ log ck msg).sheet := by
  rw [err_ret]
  exact nodup_set_state _ ck _ (nodup_set_error σ log ck msg hσ)

theorem nodup_add_dependent (σ : Sheet) (k dep : Key) (c : Cell)
    (hfind : find_cell σ k = some c) (hnin : dep ∉ c.dependents)
    (hσ : dependents_nodup σ) : dependents_nodup (add_dependent σ k dep) := by
  rw [add_dependent]
  refine nodup_update_of k _ σ (fun c2 hc2 => ?_) hσ
  rw [hfind] at hc2
  cases hc2
  have hn : List.Nodup c.dependents := hσ _ (find_cell_mem hfind)
  simp [List.nodup_append, hn, hnin]

theorem nodup_dep_mark (σ : Sheet) (refKey ck : Key) (cl : Cell)
    (hfind : find_cell σ refKey = some cl) (hσ : dependents_nodup σ) :
    dependents_nodup
      (if ck ∈ cl.dependents then σ else add_dependent σ refKey ck) := by
  split
  · exact hσ
  · next hnin => exact nodup_add_dependent σ refKey ck cl hfind hnin hσ

theorem eval_tokens_nodup {ub : String → Bool}
    {evalF : Sheet → Log → Key → Option (EvalRes × Sheet × Log)}
    (hF : ∀ σ log k r σ' log', evalF σ log k = some (r, σ', log') →
      dependents_nodup σ → dependents_nodup σ')
    (ck : Key) :
    ∀ toks σ log sum str out,
      eval_tokens ub evalF ck σ log toks sum str = some out →
      dependents_nodup σ → dependents_nodup out.sheet := by
  intro toks
  induction toks with
  | nil =>
    intro σ log sum str out h hσ
    rw [eval_tokens] at h
    cases h
    exact hσ
  | cons tok rest ih =>
    intro σ log sum str out h hσ
    rw [eval_tokens] at h
    split at h
    case isTrue halpha =>
      simp only [] at h
      split at h
      next hfind =>
        cases h
        exact nodup_err_ret σ log ck _ hσ
      next cl hfind =>
        split at h
        case isTrue hvis =>
          cases h
          exact nodup_err_ret σ log ck _ hσ
        case isFalse hvis =>
          split at h
          next htype =>
            split at h
            case isTrue herr =>
              cases h
              exact nodup_dep_mark σ _ ck cl hfind hσ
            case isFalse herr =>
              exact ih _ _ _ _ _ h (nodup_dep_mark σ _ ck cl hfind hσ)
          next htype =>
            split at h
            next hsub => cases h
            next σ2x log2x hsub =>
              cases h
              exact nodup_set_state σ2x ck _ (hF _ _ _ _ _ _ hsub hσ)
            next v σ2x log2x hsub =>
              split at h
              next hfind2 => cases h
              next cl2 hfind2 =>
                split at h
                case isTrue herr =>
                  cases h
                  exact nodup_dep_mark σ2x _ ck cl2 hfind2 (hF _ _ _ _ _ _ hsub hσ)
                case isFalse herr =>
                  exact ih _ _ _ _ _ h
                    (nodup_dep_mark σ2x _ ck cl2 hfind2 (hF _ _ _ _ _ _ hsub hσ))
          next htype hne =>
            split at h
            case isTrue herr =>
              cases h
              exact nodup_dep_mark σ _ ck cl hfind hσ
            case isFalse herr =>
              exact ih _ _ _ _ _ h (nodup_dep_mark σ _ ck cl hfind hσ)
    case isFalse halpha =>
      split at h
      case isTrue hub => exact ih _ _ _ _ _ h hσ
      case isFalse hub =>
        cases h
        exact nodup_err_ret σ log ck _ hσ

theorem evaluate_formula_nodup (ub : String → Bool) :
    ∀ fuel σ log ck r σ' log',
      evaluate_formula ub fuel σ log ck = some (r, σ', log') →
      dependents_nodup σ → dependents_nodup σ' := by
  intro fuel
  induction fuel with
  | zero =>
    intro σ log ck r σ' log' h hσ
    rw [evaluate_formula] at h
    cases h
  | succ f ih =>
    intro σ log ck r σ' log' h hσ
    have hF : ∀ σ log k r σ' log',
        (fun σ log k => evaluate_formula ub f σ log k) σ log k
          = some (r, σ', log') → dependents_nodup σ → dependents_nodup σ' :=
      fun σ log k r σ' log' hh => ih σ log k r σ' log' hh
    rw [evaluate_formula] at h
    split at h
    next hfind => cases h
    next cur hfind =>
      simp only [] at h
      split at h
      next hloop => cases h
      next σ2 log2 hloop =>
        cases h
        exact eval_tokens_nodup hF ck _ _ _ _ _ _ hloop
          (nodup_set_state σ ck _ hσ)
      next sum str σ2 log2 hloop =>
        have hσ3 : dependents_nodup (set_state σ2 ck CellState.UNVISITED) :=
          nodup_set_state σ2 ck _
            (eval_tokens_nodup hF ck _ _ _ _ _ _ hloop (nodup_set_state σ ck _ hσ))
        cases str with
        | none =>
          simp only [] at h
          cases h
          exact hσ3
        | some s =>
          simp only [] at h
          by_cases hsum : sum.num = 0
          · rw [if_neg (fun hh => hh hsum)] at h
            cases h
            exact nodup_update_preserve ck
              (fun c => { c with text_value := s, type := CellType.TEXT })
              (fun _ => rfl) _ hσ3
          · rw [if_pos hsum] at h
            cases h
            exact nodup_set_error _ log2 ck _ hσ3

theorem nodup_err_if (σ1 : Sheet) (log1 : Log) (d : Key) (msg : String)
    (b : Prop) [Decidable b] (hσ : dependents_nodup σ1) :
    dependents_nodup
      (if b then set_error_and_update σ1 log1 d msg else (σ1, log1)).1 := by
  split
  · exact nodup_set_error σ1 log1 d msg hσ
  · exact hσ

theorem update_deps_loop_nodup {ub : String → Bool}
    {evalF : Sheet → Log → Key → Option (EvalRes × Sheet × Log)}
    (hF : ∀ σ log k r σ' log', evalF σ log k = some (r, σ', log') →
      dependents_nodup σ → dependents_nodup σ') :
    ∀ fuel σ log k i σ' log',
      update_deps_loop ub evalF fuel σ log k i = some (σ', log') →
      dependents_nodup σ → dependents_nodup σ' := by
  intro fuel
  induction fuel with
  | zero =>
    intro σ log k i σ' log' h hσ
    rw [update_deps_loop] at h
    cases h
  | succ f ih =>
    intro σ log k i σ' log' h hσ
    rw [update_deps_loop] at h
    split at h
    next hfind => cases h
    next cur hfind =>
      split at h
      case isTrue hlt =>
        simp only [] at h
        split at h
        case isTrue hd =>
          exact ih _ _ _ _ _ _ h (nodup_set_error σ log k _ hσ)
        case isFalse hd =>
          split at h
          next hev => cases h
          next σ1 log1 hev =>
            split at h
            next hf1 => cases h
            next dep hf1 =>
              split at h
              next hf2 => cases h
              next dep2 hf2 =>
                exact ih _ _ _ _ _ _ h
                  (nodup_err_if σ1 log1 _ _ _ (hF _ _ _ _ _ _ hev hσ))
          next v σ1 log1 hev =>
            split at h
            next hf1 => cases h
            next dep hf1 =>
              exact ih _ _ _ _ _ _ h
                (nodup_update_preserve _
                  (fun c => { c with type := CellType.NUMBER, number_value := v })
                  (fun _ => rfl) σ1 (hF _ _ _ _ _ _ hev hσ))
      case isFalse hlt =>
        cases h
        exact hσ

theorem nodup_find_or_create (σ : Sheet) (r c : Int) (t : String)
    (hσ : dependents_nodup σ) : dependents_nodup (find_or_create σ r c t) := by
  cases hf : find_cell σ ((r, c) : Key) with
  | none =>
    simp only [find_or_create, hf]
    intro e he
    rcases List.mem_cons.mp he with rfl | hmem
    · exact List.nodup_nil
    · exact hσ _ hmem
  | some cl =>
    simp only [find_or_create, hf]
    exact nodup_update_preserve _
      (fun cl => { cl with original_input := t }) (fun _ => rfl) σ hσ

theorem set_cell_value_body_nodup (ub : String → Bool) (fuel : Nat)
    (σ0 : Sheet) (log : Log) (r c : Int) (t : String) (σ' : Sheet) (log' : Log)
    (h : set_cell_value_body ub fuel σ0 log r c t = some (σ', log'))
    (hσ0 : dependents_nodup σ0) : dependents_nodup σ' := by
  have hF : ∀ σ log k r σ' log',
      (fun σ log k => evaluate_formula ub fuel σ log k) σ log k
        = some (r, σ', log') → dependents_nodup σ → dependents_nodup σ' :=
    fun σ log k r σ' log' hh => evaluate_formula_nodup ub fuel σ log k r σ' log' hh
  rw [set_cell_value_body] at h
  split at h
  case isTrue hfm =>
    simp only [] at h
    have hσ1 : dependents_nodup (update_cell σ0 ((r, c) : Key)
        (fun cl => { cl with type := CellType.FORMULA, formula := string_tail t })) :=
      nodup_update_preserve _
        (fun cl => { cl with type := CellType.FORMULA, formula := string_tail t })
        (fun _ => rfl) σ0 hσ0
    split at h
    next hev => cases h
    next σ2 log2 hev =>
      have hσ2 : dependents_nodup σ2 :=
        evaluate_formula_nodup ub fuel _ log ((r, c) : Key) _ σ2 log2 hev hσ1
      split at h
      next hfind2 => cases h
      next cur hfind2 =>
        split at h
        case isTrue hty =>
          cases h
          exact nodup_update_preserve _
            (fun cl => { cl with
              type := CellType.ERROR, text_value := cl.original_input })
            (fun _ => rfl) σ2 hσ2
        case isFalse hty =>
          cases h
          exact hσ2
    next v σ2 log2 hev =>
      have hσ2 : dependents_nodup σ2 :=
        evaluate_formula_nodup ub fuel _ log ((r, c) : Key) _ σ2 log2 hev hσ1
      rw [update_dependencies] at h
      exact update_deps_loop_nodup hF fuel _ _ _ _ _ _ h
        (nodup_update_preserve _
          (fun cl => { cl with
            computed_value := v, type := CellType.NUMBER, number_value := v })
          (fun _ => rfl) σ2 hσ2)
  case isFalse hfm =>
    split at h
    next v hnum =>
      rw [update_dependencies] at h
      exact update_deps_loop_nodup hF fuel _ _ _ _ _ _ h
        (nodup_update_preserve _
          (fun cl => { cl with type := CellType.NUMBER, number_value := v })
          (fun _ => rfl) σ0 hσ0)
    next hnum =>
      rw [update_dependencies] at h
      exact update_deps_loop_nodup hF fuel _ _ _ _ _ _ h
        (nodup_update_preserve _
          (fun cl => { cl with type := CellType.TEXT, text_value := t })
          (fun _ => rfl) σ0 hσ0)

/-- Claim C7: no cell's dependents list ever contains the same dependent
twice — the property is preserved by every `set_cell_value` call (and holds
of the empty initial store), because dependency registration in
`evaluate_formula` first scans the referenced cell's list and only appends
when the evaluating cell is absent.  In particular a formula that references
the same cell twice creates exactly one edge, so one downstream change
re-evaluates the dependent exactly once. -/
theorem c7_dependents_nodup (ub : String → Bool) (fuel : Nat) (σ : Sheet)
    (log : Log) (r c : Int) (t : String) (σ' : Sheet) (log' : Log)
    (h : set_cell_value ub fuel σ log r c t = some (σ', log'))
    (hσ : dependents_nodup σ) : dependents_nodup σ' := by
  rw [set_cell_value] at h
  exact set_cell_value_body_nodup ub fuel _ log r c t σ' log' h
    (nodup_find_or_create σ r c t hσ)

/-! ### Round trip through original_input -/

theorem get_textual_value_eq_orig (σ : Sheet) (r c : Int) :
    get_textual_value σ r c = orig_at σ (r, c) := by
  cases h : find_cell σ ((r, c) : Key) with
  | none => simp [get_textual_value, orig_at, h]
  | some cur => simp [get_textual_value, orig_at, h]

theorem find_or_create_orig (σ : Sheet) (r c : Int) (t : String) :
    (find_cell (find_or_create σ r c t) ((r, c) : Key)).isSome ∧
    orig_at (find_or_create σ r c t) (r, c) = some t := by
  cases hf : find_cell σ ((r, c) : Key) with
  | none =>
    constructor
    · simp [find_or_create, hf, find_cell]
    · simp [find_or_create, hf, orig_at, find_cell, create_cell]
  | some cl =>
    constructor
    · simp only [find_or_create, hf]
      rw [find_update_self _ hf]
      rfl
    · simp only [find_or_create, hf, orig_at]
      rw [find_update_self _ hf]
      rfl

theorem update_dependencies_tracks (ub : String → Bool) (fuel : Nat)
    (σ : Sheet) (log : Log) (k : Key) (σ' : Sheet) (log' : Log)
    (h : update_dependencies ub fuel σ log k = some (σ', log')) :
    Tracks σ σ' := by
  rw [update_dependencies] at h
  exact update_deps_loop_tracks
    (fun σ log k r σ' log' hh =>
      evaluate_formula_tracks ub fuel σ log k r σ' log' hh)
    fuel _ _ _ _ _ _ h

theorem set_cell_value_body_tracks (ub : String → Bool) (fuel : Nat)
    (σ0 : Sheet) (log : Log) (r c : Int) (t : String) (σ' : Sheet) (log' : Log)
    (h : set_cell_value_body ub fuel σ0 log r c t = some (σ', log')) :
    Tracks σ0 σ' := by
  rw [set_cell_value_body] at h
  split at h
  case isTrue hfm =>
    simp only [] at h
    split at h
    next hev => cases h
    next σ2 log2 hev =>
      have h1 : Tracks σ0 σ2 :=
        tracks_trans
          (tracks_update
            (fun cl => { cl with type := CellType.FORMULA, formula := string_tail t })
            (fun _ => rfl) σ0 _)
          (evaluate_formula_tracks ub fuel _ log _ _ σ2 log2 hev)
      split at h
      next hfind2 => cases h
      next cur hfind2 =>
        split at h
        case isTrue hty =>
          cases h
          exact tracks_trans h1
            (tracks_update
              (fun cl => { cl with
                type := CellType.ERROR, text_value := cl.original_input })
              (fun _ => rfl) σ2 _)
        case isFalse hty =>
          cases h
          exact h1
    next v σ2 log2 hev =>
      have h1 : Tracks σ0 σ2 :=
        tracks_trans
          (tracks_update
            (fun cl => { cl with type := CellType.FORMULA, formula := string_tail t })
            (fun _ => rfl) σ0 _)
          (evaluate_formula_tracks ub fuel _ log _ _ σ2 log2 hev)
      exact tracks_trans h1
        (tracks_trans
          (tracks_update
            (fun cl => { cl with
              computed_value := v, type := CellType.NUMBER, number_value := v })
            (fun _ => rfl) σ2 _)
          (update_dependencies_tracks ub fuel _ _ _ _ _ h))
  case isFalse hfm =>
    split at h
    next v hnum =>
      exact tracks_trans
        (tracks_update
          (fun cl => { cl with type := CellType.NUMBER, number_value := v })
          (fun _ => rfl) σ0 _)
        (update_dependencies_tracks ub fuel _ _ _ _ _ h)
    next hnum =>
      exact tracks_trans
        (tracks_update
          (fun cl => { cl with type := CellType.TEXT, text_value := t })
          (fun _ => rfl) σ0 _)
        (update_dependencies_tracks ub fuel _ _ _ _ _ h)

/-- Claim C5: for every row, column and input string, immediately after
`set_cell_value(row, col, T)` the query `get_textual_value(row, col)` returns
exactly T, whatever T parsed as and however its evaluation ended:
`set_cell_value` stores T as the cell's `original_input` before evaluating,
and no evaluation or propagation step ever touches that field. -/
theorem c5_round_trip (ub : String → Bool) (fuel : Nat) (σ : Sheet)
    (log : Log) (r c : Int) (t : String) (σ' : Sheet) (log' : Log)
    (h : set_cell_value ub fuel σ log r c t = some (σ', log')) :
    get_textual_value σ' r c = some t := by
  rw [set_cell_value] at h
  obtain ⟨hsome, horig⟩ := find_or_create_orig σ r c t
  obtain ⟨_, htr⟩ :=
    set_cell_value_body_tracks ub fuel _ log r c t σ' log' h ((r, c) : Key) hsome
  rw [get_textual_value_eq_orig, htr, horig]

theorem err_fields (σ : Sheet) (log : Log) (k : Key) (msg : String)
    (cl : Cell) (hfind : find_cell σ k = some cl) :
    type_at (set_error_and_update σ log k msg).1 k = some CellType.ERROR ∧
    text_at (set_error_and_update σ log k msg).1 k = some msg := by
  simp only [set_error_and_update, hfind]
  constructor
  · simp only [type_at]
    rw [find_update_self _ hfind]
    rfl
  · simp only [text_at]
    rw [find_update_self _ hfind]
    rfl

/-- Claim C2: whenever the token scan of a formula evaluation completes (the
loop falls through or breaks on an ERROR operand), the resolution policy of
`evaluate_formula` applies to the accumulated numeric sum and optional
string: no string — the evaluation returns the numeric sum (a zero sum
included, as a valid Number 0 result, not an error); a string with zero sum —
the cell becomes TEXT with that string; a string with non-zero sum — the
cell becomes ERROR with message "ERROR: incompatible types". -/
theorem c2_resolution_policy (ub : String → Bool) (fuel : Nat) (σ : Sheet)
    (log : Log) (ck : Key) (cur : Cell) (sum : Q) (str : Option String)
    (σ2 : Sheet) (log2 : Log)
    (hfind : find_cell σ ck = some cur)
    (hloop : eval_tokens ub (fun σ log k => evaluate_formula ub fuel σ log k) ck
      (set_state σ ck CellState.VISITING) log (tokenize cur.formula) 0 none
      = some (LoopOut.done sum str σ2 log2)) :
    (str = none →
      evaluate_formula ub (fuel + 1) σ log ck
        = some (EvalRes.num sum, set_state σ2 ck CellState.UNVISITED, log2)) ∧
    (∀ s, str = some s → sum.num = 0 →
      evaluate_formula ub (fuel + 1) σ log ck
        = some (EvalRes.nan,
            update_cell (set_state σ2 ck CellState.UNVISITED) ck
              (fun c => { c with text_value := s, type := CellType.TEXT }),
            log2) ∧
      type_at (update_cell (set_state σ2 ck CellState.UNVISITED) ck
          (fun c => { c with text_value := s, type := CellType.TEXT })) ck
        = some CellType.TEXT ∧
      text_at (update_cell (set_state σ2 ck CellState.UNVISITED) ck
          (fun c => { c with text_value := s, type := CellType.TEXT })) ck
        = some s) ∧
    (∀ s, str = some s → sum.num ≠ 0 →
      evaluate_formula ub (fuel + 1) σ log ck
        = some (EvalRes.nan,
            (set_error_and_update (set_state σ2 ck CellState.UNVISITED) log2 ck
              ("ERROR: incompatible types")).1,
            (set_error_and_update (set_state σ2 ck CellState.UNVISITED) log2 ck
              ("ERROR: incompatible types")).2) ∧
      type_at (set_error_and_update (set_state σ2 ck CellState.UNVISITED) log2 ck
          ("ERROR: incompatible types")).1 ck = some CellType.ERROR ∧
      text_at (set_error_and_update (set_state σ2 ck CellState.UNVISITED) log2 ck
          ("ERROR: incompatible types")).1 ck
        = some ("ERROR: incompatible types")) := by
  have hsome1 : (find_cell (set_state σ ck CellState.VISITING) ck).isSome := by
    rw [set_state, isSome_update, hfind]
    rfl
  have hsome2 : (find_cell σ2 ck).isSome :=
    (eval_tokens_tracks
      (fun σ log k r σ' log' hh =>
        evaluate_formula_tracks ub fuel σ log k r σ' log' hh)
      ck _ _ _ _ _ _ hloop ck hsome1).1
  have hsome3 : (find_cell (set_state σ2 ck CellState.UNVISITED) ck).isSome := by
    rw [set_state, isSome_update]
    exact hsome2
  obtain ⟨c3, hc3⟩ := Option.isSome_iff_exists.mp hsome3
  have heval0 : evaluate_formula ub (fuel + 1) σ log ck =
      (match str with
       | some s =>
         if sum.num ≠ 0 then
           some (EvalRes.nan,
             (set_error_and_update (set_state σ2 ck CellState.UNVISITED) log2 ck
               ("ERROR: incompatible types")).1,
             (set_error_and_update (set_state σ2 ck CellState.UNVISITED) log2 ck
               ("ERROR: incompatible types")).2)
         else
           some (EvalRes.nan,
             update_cell (set_state σ2 ck CellState.UNVISITED) ck
               (fun c => { c with text_value := s, type := CellType.TEXT }),
             log2)
       | none =>
         some (EvalRes.num sum, set_state σ2 ck CellState.UNVISITED, log2)) := by
    rw [evaluate_formula, hfind]
    simp only [hloop]
    cases str <;> rfl
  refine ⟨?_, ?_, ?_⟩
  · intro hn
    cases hn
    rw [heval0]
  · intro s hs hz
    cases hs
    refine ⟨?_, ?_, ?_⟩
    · rw [heval0]
      simp only []
      rw [if_neg (fun hh => hh hz)]
    · simp only [type_at]
      rw [find_update_self _ hc3]
      rfl
    · simp only [text_at]
      rw [find_update_self _ hc3]
      rfl
  · intro s hs hnz
    cases hs
    refine ⟨?_, ?_, ?_⟩
    · rw [heval0]
      simp only []
      rw [if_pos hnz]
    · exact (err_fields _ log2 ck _ c3 hc3).1
    · exact (err_fields _ log2 ck _ c3 hc3).2

/-- Claim C10: `clear_cell` dereferences the result of `find_cell` without a
null check (the embedding's `none` result marks exactly that unguarded
dereference), so it succeeds precisely when a cell already exists at the
coordinates: under that precondition the absent branch is unreachable, and
without it the null dereference is reached. -/
theorem c10_clear_cell_precondition (σ : Sheet) (log : Log) (r c : Int) :
    (clear_cell σ log r c).isSome ↔ (find_cell σ ((r, c) : Key)).isSome := by
  cases hf : find_cell σ ((r, c) : Key) with
  | none => simp [clear_cell, hf]
  | some cur => simp [clear_cell, hf]

theorem find_set_error_self (σ : Sheet) (log : Log) (k : Key) (msg : String)
    (cl : Cell) (hfind : find_cell σ k = some cl) :
    find_cell (set_error_and_update σ log k msg).1 k
      = some { cl with type := CellType.ERROR, text_value := msg } := by
  simp only [set_error_and_update, hfind]
  exact find_update_self _ hfind

/-- Claim C9 (amended): when the propagation loop of `update_dependencies`
encounters a dependent equal to the changed cell itself, it marks that cell
ERROR via `set_error_and_update` with the message "ERROR: circular
dependency" — not a self-reference message — and moves on to the next
dependent without re-evaluating any formula (the step is the same for every
evaluator `evalF`, which is not consulted). -/
theorem c9_self_reference_amended (ub : String → Bool)
    (evalF : Sheet → Log → Key → Option (EvalRes × Sheet × Log))
    (fuel : Nat) (σ : Sheet) (log : Log) (k : Key) (i : Nat) (cur : Cell)
    (hfind : find_cell σ k = some cur) (hlt : i < cur.dependents.length)
    (hd : cur.dependents.get ⟨i, hlt⟩ = k) :
    update_deps_loop ub evalF (fuel + 1) σ log k i =
      update_deps_loop ub evalF fuel
        (set_error_and_update σ log k ("ERROR: circular dependency")).1
        (set_error_and_update σ log k ("ERROR: circular dependency")).2
        k (i + 1) := by
  rw [update_deps_loop, hfind]
  simp only []
  rw [dif_pos hlt, if_pos hd]

/-- Claim C8 (amended): when re-evaluating a dependent `d` during
propagation fails (NaN) and `d` is left with ERROR kind, `update_dependencies`
does not keep the message the evaluator set: it overwrites it with
"ERROR: incompatible types" (one DisplaySink notification from
`set_error_and_update`) and then notifies the DisplaySink again with `d`'s
text, which at that point is "ERROR: incompatible types" — whatever error
the evaluator had reported. -/
theorem c8_propagation_error_amended (ub : String → Bool)
    (evalF : Sheet → Log → Key → Option (EvalRes × Sheet × Log))
    (fuel : Nat) (σ : Sheet) (log : Log) (k : Key) (i : Nat) (cur : Cell)
    (d : Key) (σ1 : Sheet) (log1 : Log) (dep : Cell)
    (hfind : find_cell σ k = some cur) (hlt : i < cur.dependents.length)
    (hd : cur.dependents.get ⟨i, hlt⟩ = d) (hne : ¬ d = k)
    (hev : evalF σ log d = some (EvalRes.nan, σ1, log1))
    (hdep : find_cell σ1 d = some dep) (hty : dep.type = CellType.ERROR) :
    type_at (set_error_and_update σ1 log1 d ("ERROR: incompatible types")).1 d
      = some CellType.ERROR ∧
    text_at (set_error_and_update σ1 log1 d ("ERROR: incompatible types")).1 d
      = some ("ERROR: incompatible types") ∧
    update_deps_loop ub evalF (fuel + 1) σ log k i =
      update_deps_loop ub evalF fuel
        (set_error_and_update σ1 log1 d ("ERROR: incompatible types")).1
        ((set_error_and_update σ1 log1 d ("ERROR: incompatible types")).2
          ++ [(dep.row, dep.col, "ERROR: incompatible types")])
        k (i + 1) := by
  refine ⟨(err_fields σ1 log1 d _ dep hdep).1, (err_fields σ1 log1 d _ dep hdep).2, ?_⟩
  rw [update_deps_loop, hfind]
  simp only []
  rw [dif_pos hlt, hd, if_neg hne]
  simp only [hev, hdep]
  rw [if_pos hty]
  rw [find_set_error_self σ1 log1 d _ dep hdep]



/-! ### Concrete scenarios -/

def empty_run : Option (Sheet × Log) := some ([], [])

def lower_char (c : Char) : Char :=
  if 65 ≤ c.toNat ∧ c.toNat ≤ 90 then Char.ofNat (c.toNat + 32) else c

def has_self : List Char → Bool
  | c1 :: c2 :: c3 :: c4 :: rest =>
      (c1 == Char.ofNat 115 && c2 == Char.ofNat 101 &&
       c3 == Char.ofNat 108 && c4 == Char.ofNat 102) ||
      has_self (c2 :: c3 :: c4 :: rest)
  | _ => false

/-- True when a message mentions self-reference: it contains the word "self"
in any capitalisation. -/
def mentions_self (s : String) : Bool := has_self (s.toList.map lower_char)

def c1_run : Option (Sheet × Log) :=
  run_set (run_set (run_set (run_set empty_run 0 0 "1") 1 0 "=A1")
    2 0 "=B1+B1") 0 0 "5"

def c1_runB : Option (Sheet × Log) :=
  run_set (run_set (run_set (run_set empty_run 0 0 "1") 0 1 "=A1")
    0 2 "=B1+B1") 0 0 "5"

/-- Claim C1: what the code actually does on the claimed scenario.  With the
claim's literal coordinates, after setting (0,0)="1", (1,0)="=A1",
(2,0)="=B1+B1" and then (0,0)="5", the direct dependent (1,0) does become
Number 5 displayed "5.0", but (2,0) is ERROR "ERROR: invalid cell reference"
(token B1 denotes row 0, column 1, never set) and "10.0" is never displayed.
With the coordinates the spec's scenario intends ((0,1)="=A1",
(0,2)="=B1+B1"), the final update leaves (0,2) at Number 2, not 10, because
`update_dependencies` re-evaluates only direct dependents and never
recurses. -/
theorem c1_transitive_propagation_code_result :
    (st_type c1_run ((1 : Int), (0 : Int)) = some CellType.NUMBER ∧
     st_num c1_run ((1 : Int), (0 : Int)) = some 5 ∧
     ((1 : Int), (0 : Int), "5.0") ∈ st_log c1_run ∧
     st_type c1_run ((2 : Int), (0 : Int)) = some CellType.ERROR ∧
     st_text c1_run ((2 : Int), (0 : Int)) = some ("ERROR: invalid cell reference") ∧
     ¬ ((2 : Int), (0 : Int), "10.0") ∈ st_log c1_run) ∧
    (st_num c1_runB ((0 : Int), (1 : Int)) = some 5 ∧
     ((0 : Int), (1 : Int), "5.0") ∈ st_log c1_runB ∧
     st_type c1_runB ((0 : Int), (2 : Int)) = some CellType.NUMBER ∧
     st_num c1_runB ((0 : Int), (2 : Int)) = some 2 ∧
     ¬ st_num c1_runB ((0 : Int), (2 : Int)) = some 10) :=
  ⟨⟨rfl, rfl, by decide, rfl, rfl, by decide⟩,
   ⟨rfl, by decide, rfl, rfl, by decide⟩⟩

def c3_run : Option (Sheet × Log) :=
  run_set (run_set empty_run 0 0 "=A2") 1 0 "=A1"

/-- Claim C3 is false on the code: after `set_cell_value(0,0,"=A2")` then
`set_cell_value(1,0,"=A1")`, cell (1,0) ends with TEXT kind, not ERROR, and
neither cell carries a circular-dependency message (both texts are
"ERROR: invalid cell reference"). -/
theorem c3_cycle_rejection_counterexample :
    st_type c3_run ((1 : Int), (0 : Int)) = some CellType.TEXT ∧
    ¬ st_type c3_run ((1 : Int), (0 : Int)) = some CellType.ERROR ∧
    st_text c3_run ((0 : Int), (0 : Int)) = some ("ERROR: invalid cell reference") ∧
    ¬ st_text c3_run ((0 : Int), (0 : Int)) = some ("ERROR: circular dependency") :=
  ⟨rfl, by decide, rfl, by decide⟩

/-- Claim C3 (amended): in that scenario no cycle ever forms, because (1,0)
does not exist when "=A2" is evaluated: cell (0,0) ends ERROR with message
"ERROR: invalid cell reference", cell (1,0) ends TEXT carrying that same
error string (an ERROR operand is recorded as the result string), and
neither cell's visit state remains VISITING. -/
theorem c3_cycle_rejection_amended :
    st_type c3_run ((0 : Int), (0 : Int)) = some CellType.ERROR ∧
    st_text c3_run ((0 : Int), (0 : Int)) = some ("ERROR: invalid cell reference") ∧
    st_type c3_run ((1 : Int), (0 : Int)) = some CellType.TEXT ∧
    st_text c3_run ((1 : Int), (0 : Int)) = some ("ERROR: invalid cell reference") ∧
    st_state c3_run ((0 : Int), (0 : Int)) = some CellState.UNVISITED ∧
    st_state c3_run ((1 : Int), (0 : Int)) = some CellState.UNVISITED :=
  ⟨rfl, rfl, rfl, rfl, rfl, rfl⟩

def c6_run_false : Option (Sheet × Log) := run_set empty_run 0 0 "=5+7"

def c6_run_true : Option (Sheet × Log) :=
  set_cell_value ub_true 64 [] [] 0 0 "=5+7"

/-- Claim C6: the behaviour of "=5+7" depends on the unspecified outcome of
the `isdigit(token)` call (undefined behaviour: the token pointer, not a
character, is passed).  When the oracle answers true the cell becomes
Number 12 displayed "12.0" as the claim expects; when it answers false the
cell becomes ERROR "ERROR: invalid cell reference".  The claimed behaviour
is therefore not guaranteed by the code. -/
theorem c6_numeric_literal_code_result :
    (st_type c6_run_true ((0 : Int), (0 : Int)) = some CellType.NUMBER ∧
     st_num c6_run_true ((0 : Int), (0 : Int)) = some 12 ∧
     ((0 : Int), (0 : Int), "12.0") ∈ st_log c6_run_true) ∧
    (st_type c6_run_false ((0 : Int), (0 : Int)) = some CellType.ERROR ∧
     st_text c6_run_false ((0 : Int), (0 : Int)) = some ("ERROR: invalid cell reference")) :=
  ⟨⟨rfl, rfl, by decide⟩, ⟨rfl, rfl⟩⟩

def c8_run : Option (Sheet × Log) :=
  run_set (run_set (run_set empty_run 1 0 "7") 0 0 "=A2+A1") 1 0 "3"

/-- Claim C8 is false on the code: in a run where re-evaluating dependent
(0,0) during propagation fails with a circular dependency (the evaluator's
"ERROR: circular dependency" notification is in the log), the dependent ends
up carrying and displaying "ERROR: incompatible types" instead of the
message the evaluator set for that failure. -/
theorem c8_propagation_error_counterexample :
    st_text c8_run ((0 : Int), (0 : Int)) = some ("ERROR: incompatible types") ∧
    st_type c8_run ((0 : Int), (0 : Int)) = some CellType.ERROR ∧
    ((0 : Int), (0 : Int), "ERROR: circular dependency") ∈ st_log c8_run ∧
    ((0 : Int), (0 : Int), "ERROR: incompatible types") ∈ st_log c8_run ∧
    ¬ st_text c8_run ((0 : Int), (0 : Int)) = some ("ERROR: circular dependency") :=
  ⟨rfl, rfl, by decide, by decide, by decide⟩

def c9_cellX : Cell :=
  { row := 0, col := 0, number_value := 7, text_value := "",
    computed_value := 0, formula := "", type := CellType.NUMBER,
    original_input := "7", dependents := [((0 : Int), (0 : Int))],
    state := CellState.UNVISITED }

def c9_sheet : Sheet := [(((0 : Int), (0 : Int)), c9_cellX)]

def c9_run : Option (Sheet × Log) :=
  update_dependencies ub_false 4 c9_sheet [] ((0 : Int), (0 : Int))

/-- Claim C9 is false as stated: when propagation meets a dependent equal to
the changed cell, the cell is marked ERROR but with the message
"ERROR: circular dependency", which is not a self-reference message. -/
theorem c9_self_reference_counterexample :
    st_type c9_run ((0 : Int), (0 : Int)) = some CellType.ERROR ∧
    st_text c9_run ((0 : Int), (0 : Int)) = some ("ERROR: circular dependency") ∧
    mentions_self "ERROR: circular dependency" = false :=
  ⟨rfl, rfl, rfl⟩

/-! ### Witness data -/

def wit_sheet : Sheet :=
  [(((0 : Int), (0 : Int)),
    { row := 0, col := 0, number_value := 0, text_value := "",
      computed_value := 0, formula := "", type := CellType.NUMBER,
      original_input := "0", dependents := [], state := CellState.UNVISITED }),
   (((1 : Int), (0 : Int)),
    { row := 1, col := 0, number_value := 0, text_value := "",
      computed_value := 0, formula := "A1", type := CellType.NUMBER,
      original_input := "=A1", dependents := [], state := CellState.UNVISITED })]

def wit_cell1 : Cell :=
  { row := 1, col := 0, number_value := 0, text_value := "",
    computed_value := 0, formula := "A1", type := CellType.NUMBER,
    original_input := "=A1", dependents := [], state := CellState.UNVISITED }

def wit_mid_sheet : Sheet :=
  [(((0 : Int), (0 : Int)),
    { row := 0, col := 0, number_value := 0, text_value := "",
      computed_value := 0, formula := "", type := CellType.NUMBER,
      original_input := "0", dependents := [((1 : Int), (0 : Int))],
      state := CellState.UNVISITED }),
   (((1 : Int), (0 : Int)),
    { row := 1, col := 0, number_value := 0, text_value := "",
      computed_value := 0, formula := "A1", type := CellType.NUMBER,
      original_input := "=A1", dependents := [], state := CellState.VISITING })]

def wit_out_sheet : Sheet :=
  [(((0 : Int), (0 : Int)),
    { row := 0, col := 0, number_value := 0, text_value := "",
      computed_value := 0, formula := "", type := CellType.NUMBER,
      original_input := "0", dependents := [((1 : Int), (0 : Int))],
      state := CellState.UNVISITED }),
   (((1 : Int), (0 : Int)),
    { row := 1, col := 0, number_value := 0, text_value := "",
      computed_value := 0, formula := "A1", type := CellType.NUMBER,
      original_input := "=A1", dependents := [], state := CellState.UNVISITED })]

/-- Witness for C2 at a concrete input: the cell (1,0) holds formula "A1"
referencing a Number 0 cell, the scan completes with sum 0 and no string,
and the evaluation returns the valid Number 0 result. -/
theorem c2_resolution_policy_witness :
    evaluate_formula ub_false 1 wit_sheet [] ((1 : Int), (0 : Int))
      = some (EvalRes.num 0,
          set_state wit_mid_sheet ((1 : Int), (0 : Int)) CellState.UNVISITED,
          ([] : Log)) :=
  (c2_resolution_policy ub_false 0 wit_sheet [] ((1 : Int), (0 : Int))
    wit_cell1 0 none wit_mid_sheet [] rfl rfl).1 rfl

/-- Witness for C4 at a concrete input: the same evaluation returns, and the
evaluated cell's visit state in the resulting sheet is UNVISITED. -/
theorem c4_visit_state_restored_witness :
    evaluate_formula ub_false 1 wit_sheet [] ((1 : Int), (0 : Int))
      = some (EvalRes.num 0, wit_out_sheet, ([] : Log)) ∧
    state_at wit_out_sheet ((1 : Int), (0 : Int)) = some CellState.UNVISITED :=
  ⟨rfl, c4_visit_state_restored ub_false 1 wit_sheet [] ((1 : Int), (0 : Int))
    (EvalRes.num 0) wit_out_sheet [] rfl⟩

def c5_out_sheet : Sheet :=
  [(((0 : Int), (0 : Int)),
    { row := 0, col := 0, number_value := 0, text_value := "hi",
      computed_value := 0, formula := "", type := CellType.TEXT,
      original_input := "hi", dependents := [], state := CellState.UNVISITED })]

/-- Witness for C5 at a concrete input: storing "hi" at (0,0) and reading the
textual value back returns exactly "hi". -/
theorem c5_round_trip_witness :
    set_cell_value ub_false 2 [] [] 0 0 "hi"
      = some (c5_out_sheet, [((0 : Int), (0 : Int), "hi")]) ∧
    get_textual_value c5_out_sheet 0 0 = some "hi" :=
  ⟨rfl, c5_round_trip ub_false 2 [] [] 0 0 "hi" c5_out_sheet
    [((0 : Int), (0 : Int), "hi")] rfl⟩

def c7_mid_sheet : Sheet :=
  [(((0 : Int), (0 : Int)),
    { row := 0, col := 0, number_value := 1, text_value := "",
      computed_value := 0, formula := "", type := CellType.NUMBER,
      original_input := "1", dependents := [], state := CellState.UNVISITED })]

def c7_end_sheet : Sheet :=
  [(((1 : Int), (0 : Int)),
    { row := 1, col := 0, number_value := 2, text_value := "",
      computed_value := 2, formula := "A1+A1", type := CellType.NUMBER,
      original_input := "=A1+A1", dependents := [],
      state := CellState.UNVISITED }),
   (((0 : Int), (0 : Int)),
    { row := 0, col := 0, number_value := 1, text_value := "",
      computed_value := 0, formula := "", type := CellType.NUMBER,
      original_input := "1", dependents := [((1 : Int), (0 : Int))],
      state := CellState.UNVISITED })]

/-- Witness for C7 at a concrete input: setting (1,0) to "=A1+A1" on a sheet
holding Number 1 at (0,0) keeps every dependents list duplicate-free, and
(0,0) gains exactly one edge for the twice-referencing formula. -/
theorem c7_dependents_nodup_witness :
    set_cell_value ub_false 8 c7_mid_sheet [((0 : Int), (0 : Int), "1")]
      1 0 "=A1+A1"
      = some (c7_end_sheet, [((0 : Int), (0 : Int), "1"),
          ((1 : Int), (0 : Int), "2.0")]) ∧
    dependents_nodup c7_mid_sheet ∧
    dependents_nodup c7_end_sheet ∧
    deps_at c7_end_sheet ((0 : Int), (0 : Int)) = some [((1 : Int), (0 : Int))] :=
  ⟨rfl, by unfold dependents_nodup; decide,
   c7_dependents_nodup ub_false 8 c7_mid_sheet [((0 : Int), (0 : Int), "1")]
     1 0 "=A1+A1" c7_end_sheet
     [((0 : Int), (0 : Int), "1"), ((1 : Int), (0 : Int), "2.0")]
     rfl (by unfold dependents_nodup; decide),
   rfl⟩

def c8w_evalF : Sheet → Log → Key → Option (EvalRes × Sheet × Log) :=
  fun σ log k => evaluate_formula ub_false 8 σ log k

def c8w_cell1 : Cell :=
  { row := 1, col := 0, number_value := 7, text_value := "",
    computed_value := 0, formula := "", type := CellType.NUMBER,
    original_input := "y", dependents := [((0 : Int), (0 : Int))],
    state := CellState.UNVISITED }

def c8w_sheet : Sheet :=
  [(((0 : Int), (0 : Int)),
    { row := 0, col := 0, number_value := 7, text_value := "",
      computed_value := 0, formula := "A1", type := CellType.NUMBER,
      original_input := "x", dependents := [], state := CellState.UNVISITED }),
   (((1 : Int), (0 : Int)), c8w_cell1)]

def c8w_dep : Cell :=
  { row := 0, col := 0, number_value := 7,
    text_value := "ERROR: circular dependency", computed_value := 0,
    formula := "A1", type := CellType.ERROR, original_input := "x",
    dependents := [], state := CellState.UNVISITED }

def c8w_sigma1 : Sheet :=
  [(((0 : Int), (0 : Int)), c8w_dep), (((1 : Int), (0 : Int)), c8w_cell1)]

def c8w_log1 : Log := [((0 : Int), (0 : Int), "ERROR: circular dependency")]

/-- Witness for the amended C8 at a concrete input: dependent (0,0) holds the
self-referencing formula "A1", so re-evaluating it during propagation from
(1,0) fails with a circular dependency and leaves it ERROR; the propagation
step then overwrites the message with "ERROR: incompatible types" and
notifies the display with that text. -/
theorem c8_propagation_error_amended_witness :
    type_at (set_error_and_update c8w_sigma1 c8w_log1 ((0 : Int), (0 : Int))
        ("ERROR: incompatible types")).1 ((0 : Int), (0 : Int))
      = some CellType.ERROR ∧
    text_at (set_error_and_update c8w_sigma1 c8w_log1 ((0 : Int), (0 : Int))
        ("ERROR: incompatible types")).1 ((0 : Int), (0 : Int))
      = some ("ERROR: incompatible types") ∧
    update_deps_loop ub_false c8w_evalF (7 + 1) c8w_sheet []
        ((1 : Int), (0 : Int)) 0 =
      update_deps_loop ub_false c8w_evalF 7
        (set_error_and_update c8w_sigma1 c8w_log1 ((0 : Int), (0 : Int))
          ("ERROR: incompatible types")).1
        ((set_error_and_update c8w_sigma1 c8w_log1 ((0 : Int), (0 : Int))
            ("ERROR: incompatible types")).2
          ++ [((0 : Int), (0 : Int), "ERROR: incompatible types")])
        ((1 : Int), (0 : Int)) 1 :=
  c8_propagation_error_amended ub_false c8w_evalF 7 c8w_sheet []
    ((1 : Int), (0 : Int)) 0 c8w_cell1 ((0 : Int), (0 : Int))
    c8w_sigma1 c8w_log1 c8w_dep rfl (by decide) rfl (by decide) rfl rfl rfl

def c9_evalF : Sheet → Log → Key → Option (EvalRes × Sheet × Log) :=
  fun σ log k => evaluate_formula ub_false 4 σ log k

/-- Witness for the amended C9 at a concrete input: the single dependent of
(0,0) is (0,0) itself, and the propagation step marks it with
"ERROR: circular dependency" and continues with the next index without any
evaluation. -/
theorem c9_self_reference_amended_witness :
    update_deps_loop ub_false c9_evalF (3 + 1) c9_sheet []
        ((0 : Int), (0 : Int)) 0 =
      update_deps_loop ub_false c9_evalF 3
        (set_error_and_update c9_sheet [] ((0 : Int), (0 : Int))
          ("ERROR: circular dependency")).1
        (set_error_and_update c9_sheet [] ((0 : Int), (0 : Int))
          ("ERROR: circular dependency")).2
        ((0 : Int), (0 : Int)) 1 :=
  c9_self_reference_amended ub_false c9_evalF 3 c9_sheet []
    ((0 : Int), (0 : Int)) 0 c9_cellX rfl (by decide) rfl
